import Mathlib

/-!
Shallow embedding of `ros2_kdl_package/launch/my_aruco.launch.py`.

The launch file defines a single function `generate_launch_description`
that builds and returns an ordered list of three launch directives:
an included sub-launch (aruco_ros single.launch.py, forwarding the
marker_size / marker_id launch configurations), a static-transform-publisher
node, and an rqt_image_view node.

The environment visible to the file is modelled by `Env`:
`config` is the launch-configuration override map consulted by
`LaunchConfiguration(name, default=...)`, and `shareDir` is the package
share-directory lookup performed by `FindPackageShare(pkg).find(pkg)`.
-/

/-- External environment of a launch invocation: the launch-configuration
overrides supplied by the launch invocation mechanism, and the installed
package share-directory index consulted by FindPackageShare. -/
structure Env where
  config : String → Option String
  shareDir : String → String

/-- A launch directive as assembled by the file: either an included
sub-launch (source path plus forwarded launch arguments), or a node
(package, executable, display name, optional argument list, output mode). -/
inductive Directive where
  | includeLaunch (source : String) (launchArgs : List (String × String))
  | node (package : String) (executable : String) (name : String)
      (arguments : Option (List String)) (output : String)
deriving DecidableEq, Repr

/-- Argument list of a directive: the `arguments` field of a node,
absent for an included sub-launch. -/
def Directive.arguments : Directive → Option (List String)
  | .includeLaunch _ _ => none
  | .node _ _ _ a _ => a

/-- Source path of a directive: present only for an included sub-launch. -/
def Directive.sourcePath : Directive → Option String
  | .includeLaunch s _ => some s
  | .node _ _ _ _ _ => none

/-- Resolution of `LaunchConfiguration(name, default=d)` against the
launch context: the externally supplied override when one exists,
otherwise the default. -/
def resolveConfiguration (env : Env) (name d : String) : String :=
  (env.config name).getD d

/-- The included sub-launch built at lines 17-23 of the source:
`IncludeLaunchDescription(PythonLaunchDescriptionSource(aruco_launch_file),
launch_arguments={'marker_size': marker_size, 'marker_id': marker_id}.items())`
where `aruco_launch_file` is the aruco_ros share directory plus
`/launch/single.launch.py`. -/
def aruco_single_launch (env : Env) : Directive :=
  Directive.includeLaunch
    (env.shareDir "aruco_ros" ++ "/launch/single.launch.py")
    [("marker_size", resolveConfiguration env "marker_size" "0.1"),
     ("marker_id", resolveConfiguration env "marker_id" "201")]

/-- The static-transform-publisher node built at lines 26-32 of the source. -/
def static_transform_publisher : Directive :=
  Directive.node "tf2_ros" "static_transform_publisher" "static_transform_publisher"
    (some ["0", "0", "0", "1.57", "3.14", "1.57", "camera_link",
      "stereo_gazebo_left_camera_optical_frame"])
    "screen"

/-- The rqt_image_view node built at lines 35-40 of the source;
no `arguments` keyword is passed, so its argument list is absent. -/
def rqt_image_view : Directive :=
  Directive.node "rqt_image_view" "rqt_image_view" "rqt_image_view" none "screen"

/-- The whole `generate_launch_description` function (lines 8-46),
mirroring the source's local bindings and the returned
`LaunchDescription([aruco_single_launch, static_transform_publisher,
rqt_image_view])`. -/
def generate_launch_description (env : Env) : List Directive :=
  let marker_size := resolveConfiguration env "marker_size" "0.1"
  let marker_id := resolveConfiguration env "marker_id" "201"
  let aruco_launch_file := env.shareDir "aruco_ros" ++ "/launch/single.launch.py"
  let aruco_single := Directive.includeLaunch aruco_launch_file
    [("marker_size", marker_size), ("marker_id", marker_id)]
  let static_tf := Directive.node "tf2_ros" "static_transform_publisher"
    "static_transform_publisher"
    (some ["0", "0", "0", "1.57", "3.14", "1.57", "camera_link",
      "stereo_gazebo_left_camera_optical_frame"])
    "screen"
  let image_view := Directive.node "rqt_image_view" "rqt_image_view" "rqt_image_view"
    none "screen"
  [aruco_single, static_tf, image_view]

/-- Claim C1: for every invocation, `generate_launch_description` returns a
launch description containing exactly three launch directives, in the fixed
order [included sub-launch, static-transform-publisher node,
image-viewer node]. -/
theorem C1_three_directives_in_order (env : Env) :
    (generate_launch_description env).length = 3 ∧
    generate_launch_description env =
      [aruco_single_launch env, static_transform_publisher, rqt_image_view] :=
  ⟨rfl, rfl⟩

/-- Claim C2: for every invocation, the argument list of the
static-transform-publisher directive (the second returned directive) is the
literal eight-element sequence of six scalars followed by the parent and
child frame names. -/
theorem C2_static_transform_arguments (env : Env) :
    Option.map Directive.arguments ((generate_launch_description env).get? 1) =
      some (some ["0", "0", "0", "1.57", "3.14", "1.57", "camera_link",
        "stereo_gazebo_left_camera_optical_frame"]) :=
  rfl

/-- Claim C3: for every invocation, the included sub-launch directive (the
first returned directive) forwards a parameter mapping with exactly the two
keys marker_size and marker_id, whose values are the externally supplied
overrides when present and the defaults "0.1" and "201" otherwise. -/
theorem C3_forwarded_marker_mapping (env : Env) :
    ∃ src, (generate_launch_description env).get? 0 =
      some (Directive.includeLaunch src
        [("marker_size", (env.config "marker_size").getD "0.1"),
         ("marker_id", (env.config "marker_id").getD "201")]) :=
  ⟨env.shareDir "aruco_ros" ++ "/launch/single.launch.py", rfl⟩

/-- Claim C6: the static-transform-publisher directive and the image-viewer
directive are identical across any two invocations, whatever the two
environments (in particular whatever the configured marker values), so a
change of marker_size and/or marker_id changes at most the included
sub-launch directive. -/
theorem C6_static_and_viewer_unchanged (env₁ env₂ : Env) :
    (generate_launch_description env₁).get? 1 = (generate_launch_description env₂).get? 1 ∧
    (generate_launch_description env₁).get? 2 = (generate_launch_description env₂).get? 2 :=
  ⟨rfl, rfl⟩

/-- Claim C7: for every invocation, the source path of the included
sub-launch directive is the share directory of the aruco_ros package
concatenated with "/launch/single.launch.py". -/
theorem C7_include_source_path (env : Env) :
    Option.map Directive.sourcePath ((generate_launch_description env).get? 0) =
      some (some (env.shareDir "aruco_ros" ++ "/launch/single.launch.py")) :=
  rfl

/-- Claim C8: for every invocation, the second directive is the node with
package tf2_ros, executable static_transform_publisher, display name
static_transform_publisher and output screen, and the third directive is
the node with package rqt_image_view, executable rqt_image_view, display
name rqt_image_view, no argument list and output screen. -/
theorem C8_node_literal_fields (env : Env) :
    (generate_launch_description env).get? 1 =
      some (Directive.node "tf2_ros" "static_transform_publisher"
        "static_transform_publisher"
        (some ["0", "0", "0", "1.57", "3.14", "1.57", "camera_link",
          "stereo_gazebo_left_camera_optical_frame"])
        "screen") ∧
    (generate_launch_description env).get? 2 =
      some (Directive.node "rqt_image_view" "rqt_image_view" "rqt_image_view"
        none "screen") :=
  ⟨rfl, rfl⟩

/-- Environment with no overrides and aruco_ros installed under /opt/a. -/
def envShareA : Env := ⟨fun _ => none, fun _ => "/opt/a"⟩

/-- Environment with no overrides and aruco_ros installed under /opt/b. -/
def envShareB : Env := ⟨fun _ => none, fun _ => "/opt/b"⟩

/-- Claim C4 counterexample: two invocations under the same external
configuration of marker_size and marker_id (here: both unset) return
different launch descriptions when the installed aruco_ros share directory
differs, so agreement on the two marker configurations alone does not force
equal results. -/
theorem C4_counterexample :
    envShareA.config "marker_size" = envShareB.config "marker_size" ∧
    envShareA.config "marker_id" = envShareB.config "marker_id" ∧
    generate_launch_description envShareA ≠ generate_launch_description envShareB := by
  refine ⟨rfl, rfl, ?_⟩
  decide

/-- Claim C4 (amended): any two invocations under the same external
configuration of marker_size and marker_id, and the same installed
aruco_ros share directory, return equal launch descriptions. -/
theorem C4_deterministic (env₁ env₂ : Env)
    (hs : env₁.config "marker_size" = env₂.config "marker_size")
    (hi : env₁.config "marker_id" = env₂.config "marker_id")
    (hd : env₁.shareDir "aruco_ros" = env₂.shareDir "aruco_ros") :
    generate_launch_description env₁ = generate_launch_description env₂ := by
  simp only [generate_launch_description, resolveConfiguration, hs, hi, hd]

/-- First concrete environment for the C4 witness: marker_size overridden
to 0.05, aruco_ros installed under /opt/a, other packages under /x. -/
def envDetA : Env :=
  ⟨fun n => if n = "marker_size" then some "0.05" else none,
   fun p => if p = "aruco_ros" then "/opt/a" else "/x"⟩

/-- Second concrete environment for the C4 witness: agrees with the first
on the marker configurations and the aruco_ros share directory, differs on
an unrelated configuration key and on other packages' locations. -/
def envDetB : Env :=
  ⟨fun n => if n = "marker_size" then some "0.05" else
     if n = "use_sim_time" then some "true" else none,
   fun p => if p = "aruco_ros" then "/opt/a" else "/y"⟩

/-- Claim C4 witness: the amended determinism theorem applied at two
concrete environments agreeing on the marker configurations and the
aruco_ros share directory. -/
theorem C4_deterministic_witness :
    envDetA.config "marker_size" = envDetB.config "marker_size" ∧
    envDetA.config "marker_id" = envDetB.config "marker_id" ∧
    envDetA.shareDir "aruco_ros" = envDetB.shareDir "aruco_ros" ∧
    generate_launch_description envDetA = generate_launch_description envDetB :=
  ⟨by decide, by decide, by decide,
    C4_deterministic envDetA envDetB (by decide) (by decide) (by decide)⟩

/-- Claim C5: `generate_launch_description` validates nothing: whatever
override strings are supplied for marker_size and marker_id (numeric or
not), it still returns its three directives and forwards both strings
unchanged as the included sub-launch's parameter mapping. -/
theorem C5_no_validation (env : Env) (s i : String)
    (hs : env.config "marker_size" = some s)
    (hi : env.config "marker_id" = some i) :
    (generate_launch_description env).length = 3 ∧
    (generate_launch_description env).get? 0 =
      some (Directive.includeLaunch
        (env.shareDir "aruco_ros" ++ "/launch/single.launch.py")
        [("marker_size", s), ("marker_id", i)]) := by
  constructor
  · rfl
  · simp [generate_launch_description, resolveConfiguration, hs, hi]

/-- Concrete environment overriding both marker configurations with
strings that are neither a decimal nor an integer. -/
def envNonNumeric : Env :=
  ⟨fun n => if n = "marker_size" then some "not-a-decimal" else
     if n = "marker_id" then some "NaN" else none,
   fun _ => "/share/aruco_ros"⟩

/-- Claim C5 witness: the no-validation theorem applied at a concrete
environment whose marker overrides are non-numeric strings. -/
theorem C5_no_validation_witness :
    envNonNumeric.config "marker_size" = some "not-a-decimal" ∧
    envNonNumeric.config "marker_id" = some "NaN" ∧
    ((generate_launch_description envNonNumeric).length = 3 ∧
     (generate_launch_description envNonNumeric).get? 0 =
       some (Directive.includeLaunch
         (envNonNumeric.shareDir "aruco_ros" ++ "/launch/single.launch.py")
         [("marker_size", "not-a-decimal"), ("marker_id", "NaN")])) :=
  ⟨by decide, by decide,
    C5_no_validation envNonNumeric "not-a-decimal" "NaN" (by decide) (by decide)⟩

/-- Claim C9: the result depends on the environment only through the two
launch configurations marker_size and marker_id and the installed
aruco_ros share directory: two invocations agreeing on these three inputs
return equal launch descriptions, whatever else differs. -/
theorem C9_environment_dependency (env₁ env₂ : Env)
    (hs : env₁.config "marker_size" = env₂.config "marker_size")
    (hi : env₁.config "marker_id" = env₂.config "marker_id")
    (hd : env₁.shareDir "aruco_ros" = env₂.shareDir "aruco_ros") :
    generate_launch_description env₁ = generate_launch_description env₂ := by
  unfold generate_launch_description resolveConfiguration
  rw [hs, hi, hd]

/-- First concrete environment for the C9 witness. -/
def envNineA : Env :=
  ⟨fun n => if n = "marker_id" then some "7" else none,
   fun p => if p = "aruco_ros" then "/ros/share" else "/one"⟩

/-- Second concrete environment for the C9 witness: agrees with the first
only on the marker configurations and the aruco_ros share directory. -/
def envNineB : Env :=
  ⟨fun n => if n = "marker_id" then some "7" else
     if n = "camera_name" then some "left" else none,
   fun p => if p = "aruco_ros" then "/ros/share" else "/two"⟩

/-- Claim C9 witness: the dependency theorem applied at two concrete
environments that differ outside the three relevant inputs. -/
theorem C9_environment_dependency_witness :
    envNineA.config "marker_size" = envNineB.config "marker_size" ∧
    envNineA.config "marker_id" = envNineB.config "marker_id" ∧
    envNineA.shareDir "aruco_ros" = envNineB.shareDir "aruco_ros" ∧
    generate_launch_description envNineA = generate_launch_description envNineB :=
  ⟨by decide, by decide, by decide,
    C9_environment_dependency envNineA envNineB (by decide) (by decide) (by decide)⟩
